import Mathlib

/-!
Verification of the gpuselect Selection Engine.

The repository ships a GPU selection utility: a Telemetry Provider produces
a snapshot of per-device records, and the Selection Engine
(`__filter_gpus` in `gpuselect/nvmlgpuselect.py`) filters that snapshot
against a constraint set (count, device restriction, name substring,
utilization / memory-utilization / process-count ceilings, and an optional
caller-supplied selector predicate) and returns a prefix of at most `count`
qualifying records.  The engine module itself is not present under `src/`;
only `setup.py` and `tests/test_general.py` are.  The engine is therefore
modelled below from the specification (sections 3 and 4.1), with the one
point the tests pin down directly — the composition of the custom
`selector` with the three numeric threshold tests — taken from
`test_filter_gpus_selector` (tests/test_general.py lines 163-201): that
test supplies `processes=0` together with a snapshot whose only
selector-accepted device has one running process, and asserts that this
device is returned; so a supplied selector is evaluated in place of the
three threshold tests rather than being AND-composed with them.
-/

namespace Gpuselect

/-- A snapshot record for one GPU, mirroring `GpuInfo` as constructed in
`tests/test_general.py` (fields `device`, `name`, `util`, `mem_util`,
`processes`).  The spec's DeviceRecord invariant makes every numeric field
non-negative, so they are embedded as `Nat`. -/
structure GpuInfo where
  device : Nat
  name : String
  util : Nat
  mem_util : Nat
  processes : Nat
deriving DecidableEq, Repr

/-- Boolean test that `n` is a leading segment of `h`, on character lists. -/
def leadsList : List Char → List Char → Bool
  | [], _ => true
  | _ :: _, [] => false
  | a :: as, b :: bs => a == b && leadsList as bs

/-- `strContains hay needle`: case-sensitive substring test, the embedding
of Python's `needle in hay` on strings. -/
def strContains (hay needle : String) : Bool :=
  (List.range (hay.toList.length + 1)).any
    (fun i => leadsList needle.toList (hay.toList.drop i))

/-- Modelled from the spec: step 1 of the Selection Engine algorithm
(spec section 4.1) — the candidate pool.  The engine module
`gpuselect/nvmlgpuselect.py` is absent from src/.  The pool is the snapshot
restricted to records whose `device` lies in `devices` when `devices` is
non-empty, otherwise the full snapshot. -/
def candidatePool (gpus : List GpuInfo) (devices : List Nat) : List GpuInfo :=
  match devices with
  | [] => gpus
  | _ :: _ => gpus.filter (fun gpu => decide (gpu.device ∈ devices))

/-- The name predicate of the Constraint Set: unset means no restriction;
when set, the candidate's `name` must contain the text as a case-sensitive
substring (spec section 3). -/
def name_ok (name : Option String) (gpu : GpuInfo) : Bool :=
  match name with
  | none => true
  | some n => strContains gpu.name n

/-- Modelled from the spec: step 2 of the Selection Engine algorithm
(spec section 4.1) — the per-candidate predicate, for an engine module
absent from src/.  The name substring test is AND-composed with the rest.
When a `selector` is supplied it is evaluated in place of the three numeric
threshold tests, as pinned down by `test_filter_gpus_selector`
(tests/test_general.py lines 163-201); with no selector, the candidate must
sit at or below all three thresholds. -/
def meetsConstraints (name : Option String) (util mem_util processes : Nat)
    (selector : Option (GpuInfo → Bool)) (gpu : GpuInfo) : Bool :=
  name_ok name gpu &&
    (match selector with
     | some f => f gpu
     | none =>
         decide (gpu.util ≤ util) && decide (gpu.mem_util ≤ mem_util) &&
           decide (gpu.processes ≤ processes))

/-- Modelled from the spec: the Selection Engine `__filter_gpus`
(`gpuselect/nvmlgpuselect.py`, absent from src/), following the four steps
of spec section 4.1: build the candidate pool, filter it by the conjunction
of active predicates in snapshot order, and return the prefix of at most
`count` qualifying records. -/
def filter_gpus (gpus : List GpuInfo) (count : Nat) (devices : List Nat)
    (name : Option String) (util mem_util processes : Nat)
    (selector : Option (GpuInfo → Bool)) : List GpuInfo :=
  ((candidatePool gpus devices).filter
      (meetsConstraints name util mem_util processes selector)).take count

/-- The qualifying subsequence of the candidate pool, before truncation
(spec section 4.1 step 3). -/
def qualifying (gpus : List GpuInfo) (devices : List Nat)
    (name : Option String) (util mem_util processes : Nat)
    (selector : Option (GpuInfo → Bool)) : List GpuInfo :=
  (candidatePool gpus devices).filter
    (meetsConstraints name util mem_util processes selector)

/-- The model name used throughout `tests/test_general.py`. -/
def gpu3090 : String := "NVIDIA GeForce RTX 3090"

/-- Shorthand for building a concrete record, mirroring the test factory
`_build_gpuinfo`. -/
def mkGpu (d : Nat) (nm : String) (u mu pc : Nat) : GpuInfo :=
  { device := d, name := nm, util := u, mem_util := mu, processes := pc }

/-- Five fully idle devices named like the 3090, as in
`test_filter_gpus_name` and `test_filter_gpus_device_id`. -/
def idle5 : List GpuInfo :=
  [mkGpu 0 gpu3090 0 0 0, mkGpu 1 gpu3090 0 0 0, mkGpu 2 gpu3090 0 0 0,
   mkGpu 3 gpu3090 0 0 0, mkGpu 4 gpu3090 0 0 0]

/-- Five devices with utilization in [5, 50], as in
`test_filter_gpus_utilization`. -/
def busy5 : List GpuInfo :=
  [mkGpu 0 gpu3090 7 0 0, mkGpu 1 gpu3090 12 0 0, mkGpu 2 gpu3090 23 0 0,
   mkGpu 3 gpu3090 34 0 0, mkGpu 4 gpu3090 45 0 0]

/-- The custom selector of `test_filter_gpus_selector`: "3090" in the name,
zero utilization, and at most one process. -/
def custom_filter (gpu : GpuInfo) : Bool :=
  strContains gpu.name "3090" && decide (gpu.util = 0) &&
    decide (gpu.processes ≤ 1)

/-- The device `test_filter_gpus_selector` expects back: one process
running, but accepted by the custom selector. -/
def sel0 : GpuInfo := mkGpu 0 gpu3090 0 0 1

/-- The snapshot of `test_filter_gpus_selector`: `sel0` followed by five
devices the selector rejects (their utilization is 10). -/
def selSnap : List GpuInfo :=
  [sel0, mkGpu 1 gpu3090 10 0 2, mkGpu 2 gpu3090 10 0 3,
   mkGpu 3 gpu3090 10 0 4, mkGpu 4 gpu3090 10 0 5, mkGpu 5 gpu3090 10 0 6]

/-- The candidate pool is a subsequence of the snapshot. -/
theorem candidatePool_sublist (gpus : List GpuInfo) (devices : List Nat) :
    (candidatePool gpus devices).Sublist gpus := by
  cases devices with
  | nil => exact List.Sublist.refl gpus
  | cons d ds => exact List.filter_sublist gpus

/-- `leadsList n h` holds exactly when `h` starts with the segment `n`. -/
theorem leadsList_iff (n : List Char) (h : List Char) :
    leadsList n h = true ↔ ∃ t, h = n ++ t := by
  induction n generalizing h with
  | nil => simp [leadsList]
  | cons a as ih =>
    cases h with
    | nil => simp [leadsList]
    | cons b bs =>
      constructor
      · intro hl
        simp only [leadsList, Bool.and_eq_true, beq_iff_eq] at hl
        obtain ⟨t, ht⟩ := (ih bs).1 hl.2
        have hab : a = b := hl.1
        subst hab
        exact ⟨t, by simp [ht]⟩
      · rintro ⟨t, ht⟩
        injection ht with h1 h2
        subst h1
        subst h2
        simp only [leadsList, Bool.and_eq_true, beq_iff_eq]
        exact ⟨trivial, (ih (as ++ t)).2 ⟨t, rfl⟩⟩

/-- `strContains hay needle` holds exactly when the characters of `needle`
occur contiguously inside the characters of `hay`. -/
theorem strContains_iff (hay needle : String) :
    strContains hay needle = true
      ↔ ∃ pre post : List Char, hay.toList = pre ++ needle.toList ++ post := by
  unfold strContains
  rw [List.any_eq_true]
  constructor
  · rintro ⟨i, hi, hp⟩
    obtain ⟨t, ht⟩ := (leadsList_iff _ _).1 hp
    refine ⟨hay.toList.take i, t, ?_⟩
    conv_lhs => rw [← List.take_append_drop i hay.toList]
    rw [ht, ← List.append_assoc]
  · rintro ⟨pre, post, h⟩
    refine ⟨pre.length, ?_, ?_⟩
    · rw [List.mem_range]
      have h2 : hay.toList.length
          = pre.length + (needle.toList.length + post.length) := by
        rw [h]; simp [List.length_append]
      omega
    · rw [leadsList_iff]
      refine ⟨post, ?_⟩
      rw [h, List.append_assoc, List.drop_left]

/-- C1, counterexample.  The claim as stated fails on two concrete inputs.
First, in the scenario of `test_filter_gpus_selector`, the returned device
`sel0` has one running process while the processes threshold is 0, so a
record of the output violates an active threshold predicate.  Second, with
five identical idle devices, a name constraint and `count = 1`, device 1 is
a candidate-pool record outside the output that satisfies every active
predicate (it is dropped only by truncation to `count`). -/
theorem C1_counterexample :
    (sel0 ∈ filter_gpus selSnap 1 [] none 0 0 0 (some custom_filter)
      ∧ ¬ sel0.processes ≤ 0)
    ∧ (mkGpu 1 gpu3090 0 0 0 ∈ candidatePool idle5 []
      ∧ mkGpu 1 gpu3090 0 0 0 ∉ filter_gpus idle5 1 [] (some "3090") 0 0 0 none
      ∧ strContains (mkGpu 1 gpu3090 0 0 0).name "3090" = true
      ∧ (mkGpu 1 gpu3090 0 0 0).util ≤ 0
      ∧ (mkGpu 1 gpu3090 0 0 0).mem_util ≤ 0
      ∧ (mkGpu 1 gpu3090 0 0 0).processes ≤ 0) := by
  decide

/-- C1, amended.  Every record of the output satisfies every active
predicate, where the active predicates are the name substring test together
with the selector when one is supplied, and with the three threshold tests
when no selector is supplied; and every candidate-pool record outside the
output either fails one of those active predicates or qualifies but lies
beyond the first `count` qualifying records. -/
theorem C1_conjunctive (gpus : List GpuInfo) (count : Nat)
    (devices : List Nat) (name : Option String)
    (util mem_util processes : Nat) (selector : Option (GpuInfo → Bool)) :
    (∀ g ∈ filter_gpus gpus count devices name util mem_util processes
        selector,
      meetsConstraints name util mem_util processes selector g = true)
    ∧ ∀ g ∈ candidatePool gpus devices,
        g ∉ filter_gpus gpus count devices name util mem_util processes
            selector →
          meetsConstraints name util mem_util processes selector g = false
          ∨ g ∈ (qualifying gpus devices name util mem_util processes
              selector).drop count := by
  constructor
  · intro g hg
    have h1 : g ∈ qualifying gpus devices name util mem_util processes
        selector :=
      List.take_subset count _ hg
    exact (List.mem_filter.1 h1).2
  · intro g hg hng
    cases hc : meetsConstraints name util mem_util processes selector g with
    | false => exact Or.inl rfl
    | true =>
      refine Or.inr ?_
      have h1 : g ∈ qualifying gpus devices name util mem_util processes
          selector :=
        List.mem_filter.2 ⟨hg, hc⟩
      have h2 := List.take_append_drop count
        (qualifying gpus devices name util mem_util processes selector)
      rw [← h2] at h1
      rcases List.mem_append.1 h1 with h3 | h3
      · exact absurd h3 hng
      · exact h3

/-- C1, witness for the amended statement, at the idle-snapshot input with
a name constraint and `count = 1`: device 0 of the output meets the
constraints, and device 1, which is outside the output, falls in the
truncated tail of the qualifying sequence. -/
theorem C1_conjunctive_witness :
    meetsConstraints (some "3090") 0 0 0 none (mkGpu 0 gpu3090 0 0 0) = true
    ∧ (meetsConstraints (some "3090") 0 0 0 none (mkGpu 1 gpu3090 0 0 0)
        = false
      ∨ mkGpu 1 gpu3090 0 0 0
        ∈ (qualifying idle5 [] (some "3090") 0 0 0 none).drop 1) :=
  ⟨(C1_conjunctive idle5 1 [] (some "3090") 0 0 0 none).1
      (mkGpu 0 gpu3090 0 0 0) (by decide),
   (C1_conjunctive idle5 1 [] (some "3090") 0 0 0 none).2
      (mkGpu 1 gpu3090 0 0 0) (by decide) (by decide)⟩

/-- C2.  On the snapshot of `test_filter_gpus_selector` — a device named
like the 3090 with zero utilization and one running process, followed by
five devices the selector rejects — filtering with `count = 1`, all three
thresholds 0 and the custom selector returns exactly that first device,
even though its process count 1 exceeds the processes threshold 0. -/
theorem C2_selector_overrides_thresholds :
    filter_gpus selSnap 1 [] none 0 0 0 (some custom_filter) = [sel0]
    ∧ 0 < sel0.processes := by
  decide

/-- C3.  For `count ≥ 1` the output length equals
`min count |qualifying|`, and is bounded by `min count |snapshot|`. -/
theorem C3_output_length (gpus : List GpuInfo) (count : Nat)
    (devices : List Nat) (name : Option String)
    (util mem_util processes : Nat) (selector : Option (GpuInfo → Bool))
    (h : 1 ≤ count) :
    (filter_gpus gpus count devices name util mem_util processes
        selector).length
      = min count (qualifying gpus devices name util mem_util processes
          selector).length
    ∧ (filter_gpus gpus count devices name util mem_util processes
        selector).length
      ≤ min count gpus.length := by
  have hlen : (filter_gpus gpus count devices name util mem_util processes
      selector).length
      = min count (qualifying gpus devices name util mem_util processes
          selector).length := by
    unfold filter_gpus
    rw [List.length_take]
    rfl
  refine ⟨hlen, ?_⟩
  rw [hlen]
  have h1 : (qualifying gpus devices name util mem_util processes
      selector).length ≤ gpus.length :=
    ((List.filter_sublist _).trans
        (candidatePool_sublist gpus devices)).length_le
  exact min_le_min (le_refl count) h1

/-- C3, witness at a concrete input. -/
theorem C3_output_length_witness :
    (filter_gpus idle5 2 [] none 0 0 0 none).length
      = min 2 (qualifying idle5 [] none 0 0 0 none).length
    ∧ (filter_gpus idle5 2 [] none 0 0 0 none).length ≤ min 2 idle5.length :=
  C3_output_length idle5 2 [] none 0 0 0 none (by decide)

/-- C4.  The output is a subsequence of the input snapshot, in the same
relative order: no re-sorting by any metric. -/
theorem C4_order_preservation (gpus : List GpuInfo) (count : Nat)
    (devices : List Nat) (name : Option String)
    (util mem_util processes : Nat) (selector : Option (GpuInfo → Bool)) :
    (filter_gpus gpus count devices name util mem_util processes
        selector).Sublist gpus :=
  (List.take_sublist count _).trans
    ((List.filter_sublist _).trans (candidatePool_sublist gpus devices))

/-- C5.  For `count ≥ 1` the output is exactly the prefix of the first
`count` qualifying candidates in snapshot order, and when at most `count`
qualify it is the whole qualifying sequence — never padded. -/
theorem C5_truncation (gpus : List GpuInfo) (count : Nat)
    (devices : List Nat) (name : Option String)
    (util mem_util processes : Nat) (selector : Option (GpuInfo → Bool))
    (h : 1 ≤ count) :
    filter_gpus gpus count devices name util mem_util processes selector
      = (qualifying gpus devices name util mem_util processes
          selector).take count
    ∧ ((qualifying gpus devices name util mem_util processes
          selector).length ≤ count →
        filter_gpus gpus count devices name util mem_util processes selector
          = qualifying gpus devices name util mem_util processes selector) := by
  refine ⟨rfl, fun hle => ?_⟩
  unfold filter_gpus
  exact List.take_of_length_le hle

/-- C5, witness: a truncating run (five qualifying devices, `count = 1`)
and an under-fulfilled run (no qualifying device, `count = 3`, whole
qualifying sequence returned). -/
theorem C5_truncation_witness :
    filter_gpus idle5 1 [] (some "3090") 0 0 0 none
      = (qualifying idle5 [] (some "3090") 0 0 0 none).take 1
    ∧ filter_gpus busy5 3 [] none 0 0 0 none
      = qualifying busy5 [] none 0 0 0 none :=
  ⟨(C5_truncation idle5 1 [] (some "3090") 0 0 0 none (by decide)).1,
   (C5_truncation busy5 3 [] none 0 0 0 none (by decide)).2 (by decide)⟩

/-- C6.  With no selector, a candidate meets the constraints only if it
sits at or below all three numeric thresholds; a threshold of 0 demands
the metric be exactly zero; and the snapshot of five devices with
utilization in [5, 50] filtered with all thresholds 0 yields an empty
output. -/
theorem C6_thresholds :
    (∀ (name : Option String) (util mem_util processes : Nat) (g : GpuInfo),
      meetsConstraints name util mem_util processes none g = true →
        g.util ≤ util ∧ g.mem_util ≤ mem_util ∧ g.processes ≤ processes)
    ∧ (∀ (name : Option String) (g : GpuInfo),
      meetsConstraints name 0 0 0 none g = true →
        g.util = 0 ∧ g.mem_util = 0 ∧ g.processes = 0)
    ∧ filter_gpus busy5 1 [] none 0 0 0 none = [] := by
  have hmain : ∀ (name : Option String) (util mem_util processes : Nat)
      (g : GpuInfo),
      meetsConstraints name util mem_util processes none g = true →
        g.util ≤ util ∧ g.mem_util ≤ mem_util ∧ g.processes ≤ processes := by
    intro name util mem_util processes g hc
    simp only [meetsConstraints, Bool.and_eq_true, decide_eq_true_eq] at hc
    exact ⟨hc.2.1.1, hc.2.1.2, hc.2.2⟩
  refine ⟨hmain, ?_, by decide⟩
  intro name g hc
  obtain ⟨h1, h2, h3⟩ := hmain name 0 0 0 g hc
  exact ⟨Nat.le_zero.1 h1, Nat.le_zero.1 h2, Nat.le_zero.1 h3⟩

/-- C6, witness: a device at the utilization threshold 7, and a fully idle
device under thresholds 0. -/
theorem C6_thresholds_witness :
    ((mkGpu 0 gpu3090 7 0 0).util ≤ 7 ∧ (mkGpu 0 gpu3090 7 0 0).mem_util ≤ 0
      ∧ (mkGpu 0 gpu3090 7 0 0).processes ≤ 0)
    ∧ ((mkGpu 0 gpu3090 0 0 0).util = 0 ∧ (mkGpu 0 gpu3090 0 0 0).mem_util = 0
      ∧ (mkGpu 0 gpu3090 0 0 0).processes = 0) :=
  ⟨C6_thresholds.1 none 7 0 0 (mkGpu 0 gpu3090 7 0 0) (by decide),
   C6_thresholds.2.1 none (mkGpu 0 gpu3090 0 0 0) (by decide)⟩

/-- C7.  The name constraint: unset imposes no restriction; when set, a
candidate passes exactly when its name contains the given text as a
contiguous, case-sensitive substring; exact-text equality is the special
case where the substring spans the whole name. -/
theorem C7_name_constraint (s : String) (g : GpuInfo) :
    name_ok none g = true
    ∧ (name_ok (some s) g = true
        ↔ ∃ pre post : List Char, g.name.toList = pre ++ s.toList ++ post)
    ∧ name_ok (some g.name) g = true :=
  ⟨rfl, strContains_iff g.name s,
   (strContains_iff g.name g.name).2 ⟨[], [], by simp⟩⟩

/-- C8.  The candidate pool is the snapshot restricted to records whose
device index lies in `devices` when that list is non-empty, and the full
snapshot when it is empty; concretely, five devices with indices 0-4,
`count = 2` and `devices = [1, 3]` select exactly the records with
indices 1 and 3. -/
theorem C8_candidate_pool (gpus : List GpuInfo) (devices : List Nat) :
    (∀ g, g ∈ candidatePool gpus devices
        ↔ g ∈ gpus ∧ (devices = [] ∨ g.device ∈ devices))
    ∧ filter_gpus idle5 2 [1, 3] none 0 0 0 none
      = [mkGpu 1 gpu3090 0 0 0, mkGpu 3 gpu3090 0 0 0] := by
  refine ⟨?_, by decide⟩
  intro g
  cases devices with
  | nil => simp [candidatePool]
  | cons d ds => simp [candidatePool, List.mem_filter]

/-- C9.  The engine is a total function of its inputs in this embedding;
when zero records qualify the result is the empty sequence rather than an
error, and the empty snapshot maps to the empty output. -/
theorem C9_empty_result_not_error (gpus : List GpuInfo) (count : Nat)
    (devices : List Nat) (name : Option String)
    (util mem_util processes : Nat) (selector : Option (GpuInfo → Bool)) :
    (qualifying gpus devices name util mem_util processes selector = [] →
      filter_gpus gpus count devices name util mem_util processes selector
        = [])
    ∧ filter_gpus [] count devices name util mem_util processes selector
      = [] := by
  constructor
  · intro h
    have h2 : (candidatePool gpus devices).filter
        (meetsConstraints name util mem_util processes selector) = [] := h
    unfold filter_gpus
    rw [h2, List.take_nil]
  · have h3 : candidatePool [] devices = [] := by
      cases devices <;> rfl
    unfold filter_gpus
    rw [h3, List.filter_nil, List.take_nil]

/-- C9, witness: the busy snapshot with thresholds 0 has no qualifying
device and the output is empty; the empty snapshot also yields the empty
output. -/
theorem C9_empty_result_witness :
    filter_gpus busy5 1 [] none 0 0 0 none = []
    ∧ filter_gpus [] 1 [] none 0 0 0 none = [] :=
  ⟨(C9_empty_result_not_error busy5 1 [] none 0 0 0 none).1 (by decide),
   (C9_empty_result_not_error [] 1 [] none 0 0 0 none).2⟩

/-- C10.  Selection is deterministic: two invocations of the engine on the
same snapshot and the same constraint set return the same sequence.  The
engine is embedded as a pure function, so it has no side effects and does
not mutate the snapshot. -/
theorem C10_deterministic (gpus : List GpuInfo) (count : Nat)
    (devices : List Nat) (name : Option String)
    (util mem_util processes : Nat) (selector : Option (GpuInfo → Bool)) :
    filter_gpus gpus count devices name util mem_util processes selector
      = filter_gpus gpus count devices name util mem_util processes
          selector :=
  rfl

end Gpuselect
